import Mathlib

set_option linter.unnecessarySeqFocus false

/-!
Shallow embedding of the Vending Session Controller of `solomdb.py`:
the shared session state (`SoloMDB` attributes), the line handler
(`MDBLineReader.handle_line`), one iteration of the payment polling loop
(`MDBLineReader.payment_thread`), the refund retry loop
(`MDBLineReader.refund_thread`) and the amount encoding of
`SoloMDB.start_payment`.

Decimal values are modelled as rationals; machine strings stay strings.
Each handler invocation and each poll-loop iteration is modelled as one
atomic step on the shared state, matching the shared-resource policy the
design document stipulates for the session state.
-/

/-- Shared session state: the mutable attributes of `SoloMDB` that the
protocol handler and the background activities read and write
(`payment_uuid`, `transaction_code`, `vend_amount`, `should_cancel`,
`mdb_status`). -/
structure SessionState where
  payment_uuid : Option String
  transaction_code : Option String
  vend_amount : Option ℚ
  should_cancel : Bool
  mdb_status : String
deriving DecidableEq, Repr

/-- Initial state built by `SoloMDB.__init__`. -/
def initState : SessionState :=
  { payment_uuid := none
    transaction_code := none
    vend_amount := none
    should_cancel := false
    mdb_status := "DISABLED" }

/-- Embeds `SoloMDB.clear_payment_status`: resets `payment_uuid`,
`transaction_code` and `should_cancel` (and nothing else). -/
def clear_payment_status (s : SessionState) : SessionState :=
  { s with payment_uuid := none, transaction_code := none, should_cancel := false }

/-- Python string truthiness for an optional string (`if self.solomdb.payment_uuid:`):
`None` and the empty string are falsy. -/
def pyTruthy : Option String → Bool
  | none => false
  | some t => t ≠ ""

/-- Splitting a character list at every occurrence of `sep`, mirroring
Python `str.split(sep)`: always returns at least one (possibly empty) piece. -/
def splitOnChar (sep : Char) : List Char → List (List Char)
  | [] => [[]]
  | c :: cs =>
    if c = sep then [] :: splitOnChar sep cs
    else
      match splitOnChar sep cs with
      | [] => [[c]]
      | t :: ts => (c :: t) :: ts

/-- Embeds the line decode of `handle_line`:
`cmd, payload = data.split(',', 1)` followed by `payload = payload.split(',')`.
A line with no comma makes the unpacking raise `ValueError`. -/
def decodeLine (data : String) : Except String (String × List String) :=
  match splitOnChar ',' data.data with
  | [] => Except.error "not enough values to unpack"
  | [_] => Except.error "not enough values to unpack"
  | cmd :: rest => Except.ok (String.mk cmd, rest.map String.mk)

/-- Helper: reads a digit run as a natural number, `none` on a non-digit. -/
def parseDigitsAux : List Char → ℕ → Option ℕ
  | [], acc => some acc
  | c :: cs, acc =>
    if c.isDigit then parseDigitsAux cs (acc * 10 + (c.toNat - 48)) else none

/-- Embeds `Decimal(payload[2])` on decimal literals: optional sign, integer
part, optional fractional part, at least one digit; `none` models
`decimal.InvalidOperation`. -/
def parseDec (str : String) : Option ℚ :=
  let signBody : ℤ × List Char :=
    match str.data with
    | '-' :: cs => (-1, cs)
    | '+' :: cs => (1, cs)
    | cs => (1, cs)
  match splitOnChar '.' signBody.2 with
  | [w] =>
    match parseDigitsAux w 0 with
    | some n => if w = [] then none else some (mkRat (signBody.1 * n) 1)
    | none => none
  | [w, f] =>
    match parseDigitsAux w 0, parseDigitsAux f 0 with
    | some wn, some fn =>
      if w = [] ∧ f = [] then none
      else some (mkRat (signBody.1 * (wn * 10 ^ f.length + fn)) (10 ^ f.length))
    | _, _ => none
  | _ => none

/-- Lines written back to the device by the controller. -/
inductive OutLine where
  /-- the reset command `C,0` written on a device error -/
  | reset : OutLine
  /-- the vend approval `C,VEND,{payment_amount}` carrying the
  gateway-reported amount (which may be absent in the JSON) -/
  | vendApprove (amount : Option ℚ) : OutLine
deriving DecidableEq, Repr

/-- Exceptions `handle_line` can raise. -/
inductive HLErr where
  /-- `ValueError` from unpacking a line without a comma -/
  | parse : HLErr
  /-- `IndexError` from a missing payload field -/
  | index : HLErr
  /-- `decimal.InvalidOperation`/`TypeError` from a `Decimal(...)` call -/
  | dec : HLErr
  /-- `requests.HTTPError` raised by `start_payment` -/
  | gateway : HLErr
deriving DecidableEq, Repr

/-- Result of one `handle_line` invocation: the session state after the call
(mutations before a raise persist), lines written, how many times
`start_payment` was invoked, whether a `payment_thread` was spawned, and the
exception raised, if any. -/
structure HLResult where
  state : SessionState
  out : List OutLine
  createCalls : ℕ
  pollSpawned : Bool
  err : Option HLErr
deriving DecidableEq, Repr

/-- A result that leaves the state unchanged with no effects. -/
def noopResult (s : SessionState) : HLResult :=
  { state := s, out := [], createCalls := 0, pollSpawned := false, err := none }

/-- A raised exception carrying the state at raise time. -/
def raiseResult (s : SessionState) (e : HLErr) : HLResult :=
  { state := s, out := [], createCalls := 0, pollSpawned := false, err := some e }

/-- Embeds the command dispatch of `MDBLineReader.handle_line` after the
split: the `match cmd` / `match payload[0]` / `match payload[1]` cascade.
`fresh` is the uuid `start_payment` would store; `gwFails` tells whether the
`requests.post` of `start_payment` raises `HTTPError` (in which case
`payment_uuid` is not assigned and no poll thread starts, but `vend_amount`
was already set). -/
def handleDecoded (fresh : String) (gwFails : Bool) (s : SessionState)
    (cmd : String) (payload : List String) : HLResult :=
  if cmd = "c" then
    match payload.head? with
    | none => raiseResult s HLErr.index
    | some p0 =>
      if p0 = "SET" then noopResult s
      else if p0 = "ERR" then
        { state := s, out := [OutLine.reset], createCalls := 0,
          pollSpawned := false, err := none }
      else if p0 = "STATUS" then
        match payload.get? 1 with
        | none => raiseResult s HLErr.index
        | some p1 =>
          let s1 := { s with mdb_status := p1 }
          if p1 = "VEND" then
            match payload.get? 2 with
            | none => raiseResult s1 HLErr.index
            | some p2 =>
              match parseDec p2 with
              | none => raiseResult s1 HLErr.dec
              | some amount =>
                if s1.payment_uuid.isSome then
                  match s1.vend_amount with
                  | none => raiseResult s1 HLErr.dec
                  | some va =>
                    if amount = va then
                      { state := { s1 with should_cancel := false }, out := [],
                        createCalls := 0, pollSpawned := false, err := none }
                    else noopResult s1
                else
                  let s2 := { s1 with vend_amount := some amount }
                  if gwFails then
                    { state := s2, out := [], createCalls := 1,
                      pollSpawned := false, err := some HLErr.gateway }
                  else
                    { state := { s2 with payment_uuid := some fresh }, out := [],
                      createCalls := 1, pollSpawned := true, err := none }
          else if p1 = "IDLE" then
            if pyTruthy s1.payment_uuid then
              { state := { s1 with should_cancel := true }, out := [],
                createCalls := 0, pollSpawned := false, err := none }
            else noopResult s1
          else noopResult s1
      else if p0 = "VEND" then
        match payload.get? 1 with
        | none => raiseResult s HLErr.index
        | some p1 =>
          if p1 = "SUCCESS" then
            { state := clear_payment_status s, out := [], createCalls := 0,
              pollSpawned := false, err := none }
          else noopResult s
      else noopResult s
  else noopResult s

/-- Embeds `MDBLineReader.handle_line` on a raw line: split, then dispatch. -/
def handle_line (fresh : String) (gwFails : Bool) (s : SessionState)
    (data : String) : HLResult :=
  match decodeLine data with
  | Except.error _ => raiseResult s HLErr.parse
  | Except.ok (cmd, payload) => handleDecoded fresh gwFails s cmd payload

/-- The JSON fields `payment_thread` reads from a successful
`get_payment` response: `data.get('transaction_code')`, `data.get('status')`,
`data.get('amount')` (each may be absent). -/
structure PollData where
  transaction_code : Option String
  status : Option String
  amount : Option ℚ
deriving DecidableEq, Repr

/-- Result of one iteration of the `payment_thread` loop body: the state
afterwards, lines written, the argument a spawned `refund_thread` received
(if one was spawned), and whether the loop returned. -/
structure PollStepResult where
  state : SessionState
  out : List OutLine
  refundSpawnArg : Option (Option String)
  terminated : Bool
deriving DecidableEq, Repr

/-- Embeds one iteration of `MDBLineReader.payment_thread`: `q = none`
models an `HTTPError` from `get_payment` (log, sleep, loop); otherwise the
response's `transaction_code` is stored into the shared state before the
status match, and the status drives the branch. -/
def pollStep (s : SessionState) (q : Option PollData) : PollStepResult :=
  match q with
  | none => { state := s, out := [], refundSpawnArg := none, terminated := false }
  | some d =>
    let s1 := { s with transaction_code := d.transaction_code }
    match d.status with
    | none => { state := s1, out := [], refundSpawnArg := none, terminated := false }
    | some st =>
      if st = "PENDING" then
        { state := s1, out := [], refundSpawnArg := none, terminated := false }
      else if st = "FAILED" ∨ st = "CANCELLED" then
        { state := clear_payment_status s1, out := [], refundSpawnArg := none,
          terminated := true }
      else if st = "SUCCESSFUL" then
        if s1.mdb_status = "VEND" ∧ s1.should_cancel = false then
          { state := s1, out := [OutLine.vendApprove d.amount],
            refundSpawnArg := none, terminated := true }
        else
          { state := clear_payment_status s1, out := [],
            refundSpawnArg := some s1.transaction_code, terminated := true }
      else
        { state := s1, out := [], refundSpawnArg := none, terminated := false }

/-- The target of a `refund_payment` call made by `refund_thread`: the code
passes `self.solomdb.transaction_code` — the shared state field read at call
time — not the `transaction_code` parameter the thread was spawned with. -/
def refundCallTarget (s : SessionState) : Option String :=
  s.transaction_code

/-- Outcome of one `refund_payment` call as seen by `refund_thread`. -/
inductive RefundCallResult where
  /-- the call returned without raising -/
  | ok : RefundCallResult
  /-- the call raised `HTTPError` with `err.response.status_code = code` -/
  | httpErr (code : ℕ) : RefundCallResult
deriving DecidableEq, Repr

/-- Embeds the `refund_thread` retry loop against a schedule of call
outcomes: returns the number of `refund_payment` calls made and whether the
loop terminated (by `break`) within the schedule. A successful call breaks;
an `HTTPError` with status 409 breaks; any other error sleeps and retries. -/
def refund_thread_run : List RefundCallResult → ℕ × Bool
  | [] => (0, false)
  | RefundCallResult.ok :: _ => (1, true)
  | RefundCallResult.httpErr code :: rs =>
    if code = 409 then (1, true)
    else
      let r := refund_thread_run rs
      (r.1 + 1, r.2)

/-- Embeds the minor-unit value computed by `SoloMDB.start_payment`:
`int(amount.quantize(Decimal('0.01'), rounding=ROUND_HALF_UP) * 100)`. -/
def roundHalfUpAway (x : ℚ) : ℤ :=
  if 0 ≤ x then ⌊x + 1 / 2⌋ else -⌊-x + 1 / 2⌋

/-- Embeds `amount.quantize(Decimal('0.01'), rounding=ROUND_HALF_UP)`:
rounding to two decimal places, ties away from zero. -/
def quantize2HalfUp (a : ℚ) : ℚ :=
  (roundHalfUpAway (a * 100) : ℚ) / 100

/-- Python `int(...)` truncation toward zero on a rational. -/
def pyInt (x : ℚ) : ℤ :=
  if 0 ≤ x then ⌊x⌋ else -⌊-x⌋

/-- The `value` field `start_payment` sends in `total_amount`. -/
def start_payment_value (a : ℚ) : ℤ :=
  pyInt (quantize2HalfUp a * 100)

/-- The `minor_unit` field `start_payment` sends in `total_amount`. -/
def start_payment_minor_unit : ℕ := 2

/-- The specification's description of the transmitted amount: the integer
number of minor units obtained by rounding the decimal amount half-up to
2 decimal places and multiplying by 100. -/
def specMinorUnits (a : ℚ) : ℤ :=
  roundHalfUpAway (a * 100)

/-- One atomic step of the shared session state: a device line processed by
`handle_line`, or one `payment_thread` iteration. -/
inductive SessionStep : SessionState → SessionState → Prop where
  | line (s : SessionState) (fresh : String) (gwFails : Bool) (data : String) :
      SessionStep s (handle_line fresh gwFails s data).state
  | poll (s : SessionState) (q : Option PollData) :
      SessionStep s (pollStep s q).state

/-- States of the session reachable from startup. -/
inductive Reachable : SessionState → Prop where
  | init : Reachable initState
  | step {s t : SessionState} : Reachable s → SessionStep s t → Reachable t

/-- Modelled from the spec: the transport caller of `handle_line` (the serial
reader loop is a third-party component, not part of `src/`), which on a parse
error "logs and drops the line — never fatal", keeping the previous state and
continuing; any completed call yields the handler's state. -/
def callerStep (fresh : String) (gwFails : Bool) (s : SessionState)
    (data : String) : SessionState :=
  match (handle_line fresh gwFails s data).err with
  | some HLErr.parse => s
  | _ => (handle_line fresh gwFails s data).state

/-- The session-state invariant maintained by every atomic step:
`should_cancel` is only set while a payment is outstanding, and an
outstanding payment always has a stored vend amount. -/
def StateInv (s : SessionState) : Prop :=
  (s.should_cancel = true → s.payment_uuid.isSome = true) ∧
  (s.payment_uuid.isSome = true → s.vend_amount.isSome = true)

theorem pyTruthy_isSome {o : Option String} (h : pyTruthy o = true) :
    o.isSome = true := by
  cases o with
  | none => simp [pyTruthy] at h
  | some t => rfl

theorem stateInv_initState : StateInv initState := by
  constructor <;> intro h <;> simp [initState] at h

set_option maxHeartbeats 1600000 in
theorem stateInv_handleDecoded (fresh : String) (gwFails : Bool)
    (s : SessionState) (cmd : String) (payload : List String)
    (h : StateInv s) :
    StateInv (handleDecoded fresh gwFails s cmd payload).state := by
  obtain ⟨h1, h2⟩ := h
  obtain ⟨pu, tc, va, sc, ms⟩ := s
  unfold handleDecoded
  rcases pu with _ | pu <;> rcases va with _ | va <;>
    simp only [Option.isSome] <;>
    (repeat' split) <;>
    constructor <;> intro hx <;>
      first
        | exact h1 hx
        | exact h2 hx
        | rfl
        | exact pyTruthy_isSome (by assumption)
        | simp_all [StateInv, noopResult, raiseResult, clear_payment_status]

theorem stateInv_handle_line (fresh : String) (gwFails : Bool)
    (s : SessionState) (data : String) (h : StateInv s) :
    StateInv (handle_line fresh gwFails s data).state := by
  unfold handle_line
  split
  · exact h
  · exact stateInv_handleDecoded fresh gwFails s _ _ h

theorem stateInv_pollStep (s : SessionState) (q : Option PollData)
    (h : StateInv s) : StateInv (pollStep s q).state := by
  obtain ⟨h1, h2⟩ := h
  unfold pollStep
  dsimp only
  repeat' split
  all_goals
    constructor <;> intro hx <;>
      first
        | exact h1 hx
        | exact h2 hx
        | rfl
        | simp_all [StateInv, clear_payment_status]

theorem stateInv_reachable {s : SessionState} (h : Reachable s) :
    StateInv s := by
  induction h with
  | init => exact stateInv_initState
  | step _ hstep ih =>
    cases hstep with
    | line fresh gwFails data => exact stateInv_handle_line fresh gwFails _ data ih
    | poll q => exact stateInv_pollStep _ q ih

/-- C1: a payment observed SUCCESSFUL while `mdb_status` is VEND and
cancellation was not requested makes the poll iteration emit exactly one
vend-approve carrying the gateway-reported amount, spawn no refund,
terminate, and leave `payment_uuid` (and `vend_amount`) untouched;
only a later `c,VEND,SUCCESS` line clears the payment. -/
theorem c1_success_vending_approves (s : SessionState) (d : PollData)
    (hst : d.status = some "SUCCESSFUL")
    (hm : s.mdb_status = "VEND")
    (hc : s.should_cancel = false) :
    (pollStep s (some d)).out = [OutLine.vendApprove d.amount] ∧
    (pollStep s (some d)).refundSpawnArg = none ∧
    (pollStep s (some d)).terminated = true ∧
    (pollStep s (some d)).state.payment_uuid = s.payment_uuid ∧
    (pollStep s (some d)).state.vend_amount = s.vend_amount ∧
    (∀ fresh gwFails,
      (handleDecoded fresh gwFails (pollStep s (some d)).state "c"
        ["VEND", "SUCCESS"]).state.payment_uuid = none) := by
  obtain ⟨dtc, dst, damt⟩ := d
  simp only at hst
  subst hst
  simp [pollStep, hm, hc, handleDecoded, clear_payment_status]

theorem c1_witness :
    (pollStep
        { payment_uuid := some "u1", transaction_code := none,
          vend_amount := some (mkRat 5 1), should_cancel := false,
          mdb_status := "VEND" }
        (some { transaction_code := some "T1", status := some "SUCCESSFUL",
                amount := some (mkRat 7 1) })).out
      = [OutLine.vendApprove (some (mkRat 7 1))] ∧
    (pollStep
        { payment_uuid := some "u1", transaction_code := none,
          vend_amount := some (mkRat 5 1), should_cancel := false,
          mdb_status := "VEND" }
        (some { transaction_code := some "T1", status := some "SUCCESSFUL",
                amount := some (mkRat 7 1) })).refundSpawnArg = none := by
  have h := c1_success_vending_approves
    { payment_uuid := some "u1", transaction_code := none,
      vend_amount := some (mkRat 5 1), should_cancel := false,
      mdb_status := "VEND" }
    { transaction_code := some "T1", status := some "SUCCESSFUL",
      amount := some (mkRat 7 1) } rfl rfl rfl
  exact ⟨h.1, h.2.1⟩

/-- C2 evidence: concrete failing run. The device went IDLE before the
gateway resolved SUCCESSFUL with transaction code T1. The poll iteration
spawns the refund thread with argument T1 and then clears the session
state, but `refund_thread` passes `self.solomdb.transaction_code` — the
shared field, already reset to `None` — to `refund_payment`, so the refund
call targets `none`, not the gateway-reported code. -/
theorem c2_refund_target_uses_cleared_shared_field :
    (pollStep
        { payment_uuid := some "u1", transaction_code := none,
          vend_amount := some (mkRat 5 1), should_cancel := false,
          mdb_status := "IDLE" }
        (some { transaction_code := some "T1", status := some "SUCCESSFUL",
                amount := some (mkRat 5 1) })).out = [] ∧
    (pollStep
        { payment_uuid := some "u1", transaction_code := none,
          vend_amount := some (mkRat 5 1), should_cancel := false,
          mdb_status := "IDLE" }
        (some { transaction_code := some "T1", status := some "SUCCESSFUL",
                amount := some (mkRat 5 1) })).refundSpawnArg = some (some "T1") ∧
    (pollStep
        { payment_uuid := some "u1", transaction_code := none,
          vend_amount := some (mkRat 5 1), should_cancel := false,
          mdb_status := "IDLE" }
        (some { transaction_code := some "T1", status := some "SUCCESSFUL",
                amount := some (mkRat 5 1) })).terminated = true ∧
    (pollStep
        { payment_uuid := some "u1", transaction_code := none,
          vend_amount := some (mkRat 5 1), should_cancel := false,
          mdb_status := "IDLE" }
        (some { transaction_code := some "T1", status := some "SUCCESSFUL",
                amount := some (mkRat 5 1) })).state.payment_uuid = none ∧
    refundCallTarget
      (pollStep
        { payment_uuid := some "u1", transaction_code := none,
          vend_amount := some (mkRat 5 1), should_cancel := false,
          mdb_status := "IDLE" }
        (some { transaction_code := some "T1", status := some "SUCCESSFUL",
                amount := some (mkRat 5 1) })).state = none ∧
    (none : Option String) ≠ some "T1" := by
  refine ⟨?_, ?_, ?_, ?_, ?_, by decide⟩ <;> rfl

/-- C8 counterexample: a poll iteration whose gateway status is PENDING
still overwrites `transaction_code` (line 178 runs before the status match),
so the field does not stay unchanged on non-SUCCESSFUL iterations. -/
theorem c8_pending_overwrites_transaction_code :
    (some { transaction_code := some "T1", status := some "PENDING",
            amount := none } : Option PollData).bind PollData.status = some "PENDING" ∧
    (pollStep
        { payment_uuid := some "u1", transaction_code := none,
          vend_amount := some (mkRat 5 1), should_cancel := false,
          mdb_status := "VEND" }
        (some { transaction_code := some "T1", status := some "PENDING",
                amount := none })).terminated = false ∧
    (pollStep
        { payment_uuid := some "u1", transaction_code := none,
          vend_amount := some (mkRat 5 1), should_cancel := false,
          mdb_status := "VEND" }
        (some { transaction_code := some "T1", status := some "PENDING",
                amount := none })).state.transaction_code ≠
      ({ payment_uuid := some "u1", transaction_code := none,
         vend_amount := some (mkRat 5 1), should_cancel := false,
         mdb_status := "VEND" } : SessionState).transaction_code := by
  refine ⟨rfl, rfl, ?_⟩
  decide

/-- C8 amended: on every iteration whose gateway query succeeds,
`transaction_code` is overwritten with whatever the response carries,
regardless of status: a PENDING iteration changes only that field, a
FAILED/CANCELLED iteration additionally clears the payment; only an
iteration whose query raises leaves the state untouched. -/
theorem c8_transaction_code_overwritten_every_query (s : SessionState) (d : PollData) :
    ((pollStep s none).state = s) ∧
    (d.status = some "PENDING" →
      (pollStep s (some d)).state = { s with transaction_code := d.transaction_code }) ∧
    (d.status = some "FAILED" ∨ d.status = some "CANCELLED" →
      (pollStep s (some d)).state
        = clear_payment_status { s with transaction_code := d.transaction_code }) := by
  refine ⟨rfl, ?_, ?_⟩
  · intro hst
    obtain ⟨dtc, dst, damt⟩ := d
    simp only at hst
    subst hst
    simp [pollStep]
  · intro hst
    obtain ⟨dtc, dst, damt⟩ := d
    simp only at hst
    rcases hst with hst | hst <;> subst hst <;> simp [pollStep]

theorem c8_amended_witness :
    (pollStep
        { payment_uuid := some "u1", transaction_code := none,
          vend_amount := none, should_cancel := false, mdb_status := "VEND" }
        (some { transaction_code := some "T2", status := some "PENDING",
                amount := none })).state
      = { payment_uuid := some "u1", transaction_code := some "T2",
          vend_amount := none, should_cancel := false, mdb_status := "VEND" } := by
  have h := (c8_transaction_code_overwritten_every_query
    { payment_uuid := some "u1", transaction_code := none,
      vend_amount := none, should_cancel := false, mdb_status := "VEND" }
    { transaction_code := some "T2", status := some "PENDING",
      amount := none }).2.1 rfl
  exact h

/-- C3: while a `payment_uuid` is outstanding, a decoded `STATUS,VEND,<a>`
line calls `start_payment` zero times and spawns no poll thread; if the
parsed amount equals the stored `vend_amount`, `should_cancel` is reset. -/
theorem c3_duplicate_vend_no_recharge (s : SessionState) (fresh : String)
    (gwFails : Bool) (a : String) (rest : List String)
    (hp : s.payment_uuid.isSome = true) :
    (handleDecoded fresh gwFails s "c" ("STATUS" :: "VEND" :: a :: rest)).createCalls = 0 ∧
    (handleDecoded fresh gwFails s "c" ("STATUS" :: "VEND" :: a :: rest)).pollSpawned = false ∧
    (∀ q : ℚ, parseDec a = some q → s.vend_amount = some q →
      (handleDecoded fresh gwFails s "c"
        ("STATUS" :: "VEND" :: a :: rest)).state.should_cancel = false) := by
  refine ⟨?_, ?_, ?_⟩
  · rcases hq : parseDec a with _ | q <;>
      rcases hva : s.vend_amount with _ | va <;>
        simp [handleDecoded, hq, hp, hva, raiseResult, noopResult] <;>
        split <;> rfl
  · rcases hq : parseDec a with _ | q <;>
      rcases hva : s.vend_amount with _ | va <;>
        simp [handleDecoded, hq, hp, hva, raiseResult, noopResult] <;>
        split <;> rfl
  · intro q hq2 hva2
    simp [handleDecoded, hq2, hp, hva2, noopResult]

theorem c3_witness :
    (handleDecoded "u2" false
      { payment_uuid := some "u1", transaction_code := none,
        vend_amount := some (mkRat 5 1), should_cancel := true,
        mdb_status := "VEND" }
      "c" ["STATUS", "VEND", "5.00"]).createCalls = 0 ∧
    (handleDecoded "u2" false
      { payment_uuid := some "u1", transaction_code := none,
        vend_amount := some (mkRat 5 1), should_cancel := true,
        mdb_status := "VEND" }
      "c" ["STATUS", "VEND", "5.00"]).state.should_cancel = false := by
  have h := c3_duplicate_vend_no_recharge
    { payment_uuid := some "u1", transaction_code := none,
      vend_amount := some (mkRat 5 1), should_cancel := true,
      mdb_status := "VEND" }
    "u2" false "5.00" [] rfl
  exact ⟨h.1, h.2.2 (mkRat 5 1) (by decide) rfl⟩

/-- C6: the refund retry loop stops after exactly one call when the call
succeeds or fails with HTTP 409, retries on any other error, and never
terminates while every call keeps failing with a non-409 error. -/
theorem c6_refund_retry_policy (rs : List RefundCallResult) (code : ℕ)
    (hc : code ≠ 409) :
    refund_thread_run (RefundCallResult.httpErr 409 :: rs) = (1, true) ∧
    refund_thread_run (RefundCallResult.ok :: rs) = (1, true) ∧
    refund_thread_run (RefundCallResult.httpErr code :: rs)
      = ((refund_thread_run rs).1 + 1, (refund_thread_run rs).2) ∧
    (∀ k : ℕ, refund_thread_run (List.replicate k (RefundCallResult.httpErr code))
      = (k, false)) := by
  refine ⟨by simp [refund_thread_run], rfl, by simp [refund_thread_run, hc], ?_⟩
  intro k
  induction k with
  | zero => rfl
  | succ n ih => simp [List.replicate_succ, refund_thread_run, hc, ih]

theorem c6_witness :
    (500 : ℕ) ≠ 409 ∧
    refund_thread_run [RefundCallResult.httpErr 500]
      = ((refund_thread_run []).1 + 1, (refund_thread_run []).2) :=
  ⟨by decide, (c6_refund_retry_policy [] 500 (by decide)).2.2.1⟩

theorem pyInt_intCast (r : ℤ) : pyInt (r : ℚ) = r := by
  unfold pyInt
  split
  · exact Int.floor_intCast r
  · rw [← Int.cast_neg, Int.floor_intCast]
    ring

/-- C7: the transmitted value is the minor-unit integer obtained by
rounding half-up to two decimal places and multiplying by 100, the
minor-unit exponent is 2, and 3.005 quantizes to 3.01 and is sent as 301. -/
theorem c7_amount_encoding (a : ℚ) :
    start_payment_value a = specMinorUnits a ∧
    start_payment_minor_unit = 2 ∧
    quantize2HalfUp (3005 / 1000 : ℚ) = 301 / 100 ∧
    start_payment_value (3005 / 1000 : ℚ) = 301 := by
  have hgen : ∀ b : ℚ, start_payment_value b = specMinorUnits b := by
    intro b
    unfold start_payment_value quantize2HalfUp specMinorUnits
    rw [div_mul_cancel₀ _ (by norm_num : (100 : ℚ) ≠ 0)]
    exact pyInt_intCast _
  have h301 : roundHalfUpAway ((3005 / 1000 : ℚ) * 100) = 301 := by
    unfold roundHalfUpAway
    rw [if_pos (by norm_num)]
    rw [show ((3005 / 1000 : ℚ) * 100 + 1 / 2) = ((301 : ℤ) : ℚ) by norm_num]
    exact Int.floor_intCast 301
  refine ⟨hgen a, rfl, ?_, ?_⟩
  · unfold quantize2HalfUp
    rw [h301]
    norm_num
  · rw [hgen]
    unfold specMinorUnits
    exact h301

theorem splitOnChar_no_sep {sep : Char} {l : List Char}
    (h : ∀ c ∈ l, c ≠ sep) : splitOnChar sep l = [l] := by
  induction l with
  | nil => rfl
  | cons c cs ih =>
    unfold splitOnChar
    rw [if_neg (h c (List.mem_cons_self c cs)),
      ih (fun x hx => h x (List.mem_cons_of_mem c hx))]

/-- C9: a raw line with no comma makes `handle_line` raise the parse error
before touching the session state; the caller (modelled from the spec) logs
and drops the line, so the state is unchanged and the reader continues. -/
theorem c9_malformed_line_dropped (s : SessionState) (fresh : String)
    (gwFails : Bool) (data : String) (hnc : ',' ∉ data.data) :
    decodeLine data = Except.error "not enough values to unpack" ∧
    handle_line fresh gwFails s data = raiseResult s HLErr.parse ∧
    (handle_line fresh gwFails s data).state = s ∧
    callerStep fresh gwFails s data = s := by
  have hne : ∀ c ∈ data.data, c ≠ ',' := fun c hc he => hnc (he ▸ hc)
  have hdec : decodeLine data = Except.error "not enough values to unpack" := by
    unfold decodeLine
    rw [splitOnChar_no_sep hne]
  have hhl : handle_line fresh gwFails s data = raiseResult s HLErr.parse := by
    unfold handle_line
    rw [hdec]
  refine ⟨hdec, hhl, ?_, ?_⟩
  · rw [hhl]
    rfl
  · unfold callerStep
    rw [hhl]
    rfl

theorem c9_witness :
    decodeLine "STATUS" = Except.error "not enough values to unpack" ∧
    callerStep "u1" false initState "STATUS" = initState := by
  have h := c9_malformed_line_dropped initState "u1" false "STATUS" (by decide)
  exact ⟨h.1, h.2.2.2⟩

/-- C10 counterexample: the line `c,STATUS,FOO` carries a status token that
is neither VEND nor IDLE, yet processing it changes the session state:
`mdb_status` is assigned before the inner status match. -/
theorem c10_unknown_status_changes_device_status :
    (handle_line "u1" false initState "c,STATUS,FOO").err = none ∧
    (handle_line "u1" false initState "c,STATUS,FOO").state.mdb_status = "FOO" ∧
    (handle_line "u1" false initState "c,STATUS,FOO").state ≠ initState := by
  exact ⟨rfl, rfl, by decide⟩

/-- C10 amended: unrecognized commands, unrecognized `c` subcommands and
`c,VEND` lines without SUCCESS leave the state unchanged, but a `c,STATUS`
line always records its status token into `mdb_status`, even when the token
is neither VEND nor IDLE (all other fields unchanged). -/
theorem c10_unrecognized_commands (s : SessionState) (fresh : String)
    (gwFails : Bool) :
    (∀ cmd payload, cmd ≠ "c" →
      handleDecoded fresh gwFails s cmd payload = noopResult s) ∧
    (∀ p0 rest, p0 ≠ "SET" → p0 ≠ "ERR" → p0 ≠ "STATUS" → p0 ≠ "VEND" →
      handleDecoded fresh gwFails s "c" (p0 :: rest) = noopResult s) ∧
    (∀ t rest, t ≠ "VEND" → t ≠ "IDLE" →
      handleDecoded fresh gwFails s "c" ("STATUS" :: t :: rest)
        = noopResult { s with mdb_status := t }) ∧
    (∀ x rest, x ≠ "SUCCESS" →
      handleDecoded fresh gwFails s "c" ("VEND" :: x :: rest) = noopResult s) := by
  refine ⟨?_, ?_, ?_, ?_⟩
  · intro cmd payload hcmd
    simp [handleDecoded, hcmd]
  · intro p0 rest h1 h2 h3 h4
    simp [handleDecoded, h1, h2, h3, h4]
  · intro t rest h1 h2
    simp [handleDecoded, h1, h2]
  · intro x rest h1
    simp [handleDecoded, h1]

theorem c10_witness :
    handleDecoded "u1" false initState "c" ["STATUS", "FOO"]
      = noopResult { initState with mdb_status := "FOO" } :=
  (c10_unrecognized_commands initState "u1" false).2.2.1 "FOO" []
    (by decide) (by decide)

/-- C4 counterexample: after one vend request (`c,STATUS,VEND,1.00`) and a
FAILED gateway resolution, the reachable state has `payment_uuid = none`
but still `vend_amount = some 1`: the fields are not cleared together. -/
theorem c4_not_cleared_together :
    ¬ (∀ s : SessionState, Reachable s →
        (s.payment_uuid = none ↔ s.vend_amount = none)) := by
  intro hclaim
  have hr : Reachable (pollStep
      (handle_line "u1" false initState "c,STATUS,VEND,1.00").state
      (some { transaction_code := none, status := some "FAILED",
              amount := none })).state :=
    Reachable.step
      (Reachable.step Reachable.init
        (SessionStep.line initState "u1" false "c,STATUS,VEND,1.00"))
      (SessionStep.poll _ _)
  have h := (hclaim _ hr).mp (by decide)
  revert h
  decide

/-- C4 amended: `payment_uuid` is only set in the same step that stores
`vend_amount`, so in every reachable state an outstanding payment has a
stored amount; but `clear_payment_status` resets only `payment_uuid`,
`transaction_code` and `should_cancel`, leaving `vend_amount` in place. -/
theorem c4_set_together_cleared_apart (s : SessionState) (h : Reachable s) :
    (s.payment_uuid.isSome = true → s.vend_amount.isSome = true) ∧
    (∀ t : SessionState,
      (clear_payment_status t).payment_uuid = none ∧
      (clear_payment_status t).transaction_code = none ∧
      (clear_payment_status t).should_cancel = false ∧
      (clear_payment_status t).vend_amount = t.vend_amount) :=
  ⟨(stateInv_reachable h).2, fun _ => ⟨rfl, rfl, rfl, rfl⟩⟩

theorem c4_witness :
    ((handle_line "u1" false initState "c,STATUS,VEND,1.00").state.payment_uuid.isSome = true →
      (handle_line "u1" false initState "c,STATUS,VEND,1.00").state.vend_amount.isSome = true) ∧
    (∀ t : SessionState,
      (clear_payment_status t).payment_uuid = none ∧
      (clear_payment_status t).transaction_code = none ∧
      (clear_payment_status t).should_cancel = false ∧
      (clear_payment_status t).vend_amount = t.vend_amount) :=
  c4_set_together_cleared_apart _
    (Reachable.step Reachable.init
      (SessionStep.line initState "u1" false "c,STATUS,VEND,1.00"))

/-- C5: in every reachable state `should_cancel` implies an outstanding
`payment_uuid`; `c,STATUS,IDLE` leaves `should_cancel` untouched when no
payment is outstanding, and every clearing resets `should_cancel`. -/
theorem c5_cancel_only_while_payment (s : SessionState) (h : Reachable s) :
    (s.should_cancel = true → s.payment_uuid ≠ none) ∧
    (s.payment_uuid = none →
      ∀ fresh gwFails, (handleDecoded fresh gwFails s "c"
        ["STATUS", "IDLE"]).state.should_cancel = s.should_cancel) ∧
    (∀ t : SessionState, (clear_payment_status t).should_cancel = false) := by
  refine ⟨?_, ?_, fun _ => rfl⟩
  · intro hc
    have := (stateInv_reachable h).1 hc
    exact Option.isSome_iff_ne_none.mp this
  · intro hp fresh gwFails
    simp [handleDecoded, hp, pyTruthy, noopResult]

theorem c5_witness :
    ((handle_line "x" false
        (handle_line "u1" false initState "c,STATUS,VEND,1.00").state
        "c,STATUS,IDLE").state.should_cancel = true →
      (handle_line "x" false
        (handle_line "u1" false initState "c,STATUS,VEND,1.00").state
        "c,STATUS,IDLE").state.payment_uuid ≠ none) ∧
    (handle_line "x" false
        (handle_line "u1" false initState "c,STATUS,VEND,1.00").state
        "c,STATUS,IDLE").state.should_cancel = true := by
  have h := c5_cancel_only_while_payment _
    (Reachable.step
      (Reachable.step Reachable.init
        (SessionStep.line initState "u1" false "c,STATUS,VEND,1.00"))
      (SessionStep.line _ "x" false "c,STATUS,IDLE"))
  exact ⟨h.1, by decide⟩
